import Mathlib

/-!
Verification of the MentorBot conversation-access and memory pipeline.

This file shallowly embeds the core of the repository: the dialogue handler
`dialogue_process` (tgbot/handlers/users/user.py), the expiry-sweep loops
(tgbot/services/subscription.py), the encryption module
(tgbot/services/encryption.py), and the conversation-store query
(tgbot/db/repositories/conversation.py).  External capabilities (OpenAI
embeddings and replies, the Qdrant vector store, the Telegram transport,
the Fernet cipher) are modelled as oracle inputs, and each theorem states a
property of the embedded code.
-/

namespace MentorBot

/-- A role/content chat turn, as held in the FSM conversation history and in
the message lists sent to the reply capability. -/
structure Msg where
  role : String
  content : String
deriving DecidableEq, Repr

/-- The DBUser row (tgbot/db/models/user.py), restricted to the fields the
core pipeline reads or writes.  Timestamps are modelled as seconds (Nat). -/
structure DBUser where
  id : Nat
  telegram_id : Option Nat
  brief_background : String
  goal : String
  sub_until : Option Nat
  is_sub : Bool
  is_reg : Bool
  is_ban : Bool
deriving DecidableEq, Repr

/-- The DBMentor row (tgbot/db/models/mentor.py). -/
structure DBMentor where
  id : Nat
  name : String
  mentor_age : Nat
  background : String
  recent_events : String
  personality_style : String
  greeting : String
  sys_prompt_summary : String
deriving DecidableEq, Repr

/-- The DBConversationMessage row (tgbot/db/models/conversation.py).  The
mentor reference is nullable; `created_at` is the DB timestamp. -/
structure DBConversationMessage where
  user_id : Nat
  mentor_id : Option Nat
  role : String
  content : String
  is_summary : Bool
  created_at : Nat
deriving DecidableEq, Repr

/-- Python blank test `not text or not text.strip()`: true iff the string is
empty or consists of whitespace only. -/
def isBlank (s : String) : Bool :=
  s.data.all Char.isWhitespace

/-- Model of `create_embeddings` (tgbot/services/temp_openai.py): raises on
blank input, propagates a capability failure (`cap = none` models the OpenAI
call raising), and rejects an empty result vector. -/
def create_embeddings (cap : Option (List Int)) (text : String) : Option (List Int) :=
  if isBlank text then none
  else
    match cap with
    | none => none
    | some v => if v = [] then none else some v

/-- The message list `reply_from_mentor` (tgbot/services/temp_openai.py)
sends to the model: the persona system turn, then the history passed by the
caller, then the current user turn. -/
def reply_messages (mentor_json : String) (conversation_history : List Msg)
    (user_msg : String) : List Msg :=
  { role := "system", content := mentor_json } :: conversation_history
    ++ [{ role := "user", content := user_msg }]

/-- Result model of `reply_from_mentor`: a capability failure raises
(`cap = none`), and a blank reply raises `AIServiceError` (the source checks
`if not content or not content.strip()`). -/
def reply_from_mentor (cap : Option String) : Option String :=
  match cap with
  | none => none
  | some c => if isBlank c then none else some c

/-- Serialization of the mentor persona dict built in `dialogue_process` and
passed through `json.dumps` as the system message of the reply call.  The
exact JSON syntax is not load-bearing; the model keeps it a deterministic
function of the same fields in the same order. -/
def mentor_json_str (m : DBMentor) (u : DBUser) : String :=
  String.intercalate "|"
    [m.name, toString m.mentor_age, m.background, m.recent_events, m.greeting,
     m.sys_prompt_summary, m.personality_style, u.brief_background, u.goal]

/-- The expiry condition tested by `dialogue_process`:
`user.is_sub and user.sub_until and user.sub_until < datetime.utcnow()`. -/
def subExpiredCheck (u : DBUser) (now : Nat) : Bool :=
  u.is_sub && (match u.sub_until with
               | some t => decide (t < now)
               | none => false)

/-- The free-tier condition tested by `dialogue_process`: the count query runs
only for non-subscribers, and the branch fires on `message_quantity > 10`. -/
def freeLimitCheck (u : DBUser) (msgCount : Nat) : Bool :=
  !u.is_sub && decide (msgCount > 10)

/-- The terminal outcome of one `dialogue_process` invocation.  Error
constructors stand for the exceptions the handler raises; message
constructors stand for the distinct user-facing answers. -/
inductive Outcome where
  | userNotFound
  | banned
  | subExpired
  | limitUpsell (price_rub : Nat)
  | limitPaymentsDisabled
  | mentorNotFound
  | aiError
  | replied (text : String)
deriving DecidableEq, Repr

/-- Everything one `dialogue_process` invocation observably does:
the outcome, the committed user-row updates, the vector-memory upserts
(telegram id, role, content), the conversation-store rows written, the
message list sent to the reply capability, and the FSM history afterwards. -/
structure DialogueResult where
  outcome : Outcome
  userWrites : List DBUser
  vectorWrites : List (Nat × String × String)
  convWrites : List DBConversationMessage
  modelInput : List Msg
  newHistory : List Msg
  stateCleared : Bool
deriving DecidableEq, Repr

/-- The inputs of one `dialogue_process` invocation, with every external
capability call replaced by an oracle value: `embedCap` and `replyEmbedCap`
are the embedding capability results for the incoming text and for the reply
(`none` = the call fails), `similar` is the `retrieve_history` result, and
`replyCap` is the raw reply-capability output. -/
structure DialogueEnv where
  tg_id : Nat
  text : String
  now : Nat
  user : Option DBUser
  msgCount : Nat
  paymentsEnabled : Bool
  price : Nat
  mentor : Option DBMentor
  history : List Msg
  embedCap : Option (List Int)
  similar : List String
  replyCap : Option String
  replyEmbedCap : Option (List Int)
deriving Repr

/-- The post-gate part of `dialogue_process` (tgbot/handlers/users/user.py,
lines 318-392): mentor lookup, embedding of the incoming text, vector write
of the user turn, assembly of the model input from the retrieval turn and the
FSM history, the reply call, vector write of the reply, the two
conversation-store rows, and the history extension and trim. -/
def run_turn (user : DBUser) (env : DialogueEnv) : DialogueResult :=
  match env.mentor with
  | none =>
      { outcome := Outcome.mentorNotFound, userWrites := [], vectorWrites := [],
        convWrites := [], modelInput := [], newHistory := env.history,
        stateCleared := false }
  | some mentor =>
    let mentorJson := mentor_json_str mentor user
    match create_embeddings env.embedCap env.text with
    | none =>
        { outcome := Outcome.aiError, userWrites := [], vectorWrites := [],
          convWrites := [], modelInput := [], newHistory := env.history,
          stateCleared := false }
    | some _ =>
      let vw1 : List (Nat × String × String) := [(env.tg_id, "user", env.text)]
      let contextHistory : List Msg :=
        if env.similar.isEmpty then []
        else [{ role := "system", content := String.intercalate "\n" env.similar }]
      let input := reply_messages mentorJson (contextHistory ++ env.history) env.text
      match reply_from_mentor env.replyCap with
      | none =>
          { outcome := Outcome.aiError, userWrites := [], vectorWrites := vw1,
            convWrites := [], modelInput := input, newHistory := env.history,
            stateCleared := false }
      | some resp =>
        match create_embeddings env.replyEmbedCap resp with
        | none =>
            { outcome := Outcome.aiError, userWrites := [], vectorWrites := vw1,
              convWrites := [], modelInput := input, newHistory := env.history,
              stateCleared := false }
        | some _ =>
          let vw2 := vw1 ++ [(env.tg_id, "assistant", resp)]
          let hist1 := env.history ++
            [{ role := "user", content := env.text },
             { role := "assistant", content := resp }]
          let cw : List DBConversationMessage :=
            [{ user_id := user.id, mentor_id := none, role := "user",
               content := env.text, is_summary := false, created_at := env.now },
             { user_id := user.id, mentor_id := none, role := "assistant",
               content := resp, is_summary := false, created_at := env.now }]
          let hist2 := if hist1.length > 20 then hist1.drop 2 else hist1
          { outcome := Outcome.replied resp, userWrites := [], vectorWrites := vw2,
            convWrites := cw, modelInput := input, newHistory := hist2,
            stateCleared := false }

/-- The dialogue handler `dialogue_process` (tgbot/handlers/users/user.py,
lines 232-392) as a function of its oracle environment: user lookup, ban
check, mutate-on-read expiry check, free-tier count check, then the turn. -/
def dialogue_process (env : DialogueEnv) : DialogueResult :=
  match env.user with
  | none =>
      { outcome := Outcome.userNotFound, userWrites := [], vectorWrites := [],
        convWrites := [], modelInput := [], newHistory := env.history,
        stateCleared := false }
  | some user =>
    if user.is_ban then
      { outcome := Outcome.banned, userWrites := [], vectorWrites := [],
        convWrites := [], modelInput := [], newHistory := env.history,
        stateCleared := false }
    else if subExpiredCheck user env.now then
      { outcome := Outcome.subExpired,
        userWrites := [{ user with is_sub := false }], vectorWrites := [],
        convWrites := [], modelInput := [], newHistory := [],
        stateCleared := true }
    else if freeLimitCheck user env.msgCount then
      if env.paymentsEnabled then
        { outcome := Outcome.limitUpsell (env.price / 100), userWrites := [],
          vectorWrites := [], convWrites := [], modelInput := [],
          newHistory := [], stateCleared := true }
      else
        { outcome := Outcome.limitPaymentsDisabled, userWrites := [],
          vectorWrites := [], convWrites := [], modelInput := [],
          newHistory := [], stateCleared := true }
    else
      run_turn user env

/-! ### Expiry Sweep (tgbot/services/subscription.py) -/

/-- Stand-in for the text constant of the same name (tgbot/texts.py is not
part of the sources at hand; only distinctness of the texts matters). -/
def SUBSCRIPTION_EXPIRED_MESSAGE : String := "SUBSCRIPTION_EXPIRED_MESSAGE"

/-- Stand-in for `SUBSCRIPTION_INACTIVE_TEMPLATE.format(period=period)`. -/
def SUBSCRIPTION_INACTIVE_TEMPLATE (period : String) : String :=
  "SUBSCRIPTION_INACTIVE:" ++ period

/-- The PERIOD_NAMES table of subscription.py, as days-elapsed to period
name. -/
def PERIOD_NAMES (d : Nat) : Option String :=
  if d = 3 then some "3 дня"
  else if d = 14 then some "две недели"
  else if d = 30 then some "месяц"
  else if d = 182 then some "полгода"
  else if d = 365 then some "год"
  else none

/-- `UserRepository.get_expired(now)`: every user whose `sub_until` is set
and strictly before `now` (regardless of the `is_sub` flag). -/
def get_expired (now : Nat) (users : List DBUser) : List DBUser :=
  users.filter fun u =>
    match u.sub_until with
    | some t => decide (t < now)
    | none => false

/-- `UserRepository.get_unpaid_registered()`: registered users without an
active subscription flag. -/
def get_unpaid_registered (users : List DBUser) : List DBUser :=
  users.filter fun u => u.is_reg && !u.is_sub

/-- What one iteration of a sweep observably did: the notifications sent,
the user-row updates staged in the session, whether the final
`session.commit()` ran, and whether an exception escaped the loop. -/
structure SweepResult where
  sent : List (Nat × String)
  updates : List DBUser
  committed : Bool
  aborted : Bool
deriving DecidableEq, Repr

/-- The per-user loop of `notify_expired_subscriptions`.  `sendOk tg` models
whether `bot.send_message` to that telegram id succeeds; the source wraps the
send in no try/except, so a failing send raises out of the loop: the
remaining users are not processed and the trailing `session.commit()` never
runs.  Seconds-to-days conversion models `(now - sub_until).days`. -/
def expiredSweepLoop (now : Nat) (sendOk : Nat → Bool) :
    List DBUser → List (Nat × String) → List DBUser → SweepResult
  | [], sent, updates =>
      { sent := sent, updates := updates, committed := true, aborted := false }
  | user :: rest, sent, updates =>
    match user.sub_until, user.telegram_id with
    | some t, some tg =>
      let delta := (now - t) / 86400
      let textOpt : Option String :=
        if delta = 0 then some SUBSCRIPTION_EXPIRED_MESSAGE
        else
          match PERIOD_NAMES delta with
          | none => none
          | some period => some (SUBSCRIPTION_INACTIVE_TEMPLATE period)
      match textOpt with
      | none => expiredSweepLoop now sendOk rest sent updates
      | some text =>
        let updates2 :=
          if user.is_sub then updates ++ [{ user with is_sub := false }]
          else updates
        if sendOk tg then
          expiredSweepLoop now sendOk rest (sent ++ [(tg, text)]) updates2
        else
          { sent := sent, updates := updates2, committed := false, aborted := true }
    | _, _ => expiredSweepLoop now sendOk rest sent updates

/-- One iteration of the `notify_expired_subscriptions` body (subscription.py
lines 52-73): fetch the expired users, loop, then commit. -/
def notify_expired_subscriptions_iter (now : Nat) (sendOk : Nat → Bool)
    (users : List DBUser) : SweepResult :=
  expiredSweepLoop now sendOk (get_expired now users) [] []

/-- The per-user loop of `notify_unpaid_registered_users`.  `promo` models
the `secrets.choice(PROMO_TEXTS)` draw for each user; as in the expired
sweep, a failing send raises out of the loop and skips the commit. -/
def unpaidSweepLoop (promo : DBUser → String) (sendOk : Nat → Bool) :
    List DBUser → List (Nat × String) → SweepResult
  | [], sent =>
      { sent := sent, updates := [], committed := true, aborted := false }
  | user :: rest, sent =>
    match user.telegram_id with
    | none => unpaidSweepLoop promo sendOk rest sent
    | some tg =>
      if sendOk tg then
        unpaidSweepLoop promo sendOk rest (sent ++ [(tg, promo user)])
      else
        { sent := sent, updates := [], committed := false, aborted := true }

/-- One iteration of the `notify_unpaid_registered_users` body
(subscription.py lines 80-90). -/
def notify_unpaid_registered_users_iter (promo : DBUser → String)
    (sendOk : Nat → Bool) (users : List DBUser) : SweepResult :=
  unpaidSweepLoop promo sendOk (get_unpaid_registered users) []

/-! ### Secret Store (tgbot/services/encryption.py) -/

/-- An abstract symmetric cipher standing for the external Fernet library:
`enc` encrypts, and `dec` returns `none` where the library raises
`InvalidToken`. -/
structure Fernet where
  enc : String → String
  dec : String → Option String

/-- The module state set by `setup`: the enable switch and the cipher
instance (`_fernet` stays `None` when disabled). -/
structure EncState where
  enabled : Bool
  fernet : Option Fernet

/-- `setup(key, enabled)` from encryption.py. -/
def setup (key : Fernet) (enabled : Bool) : EncState :=
  { enabled := enabled, fernet := if enabled then some key else none }

/-- `encrypt`: returns the input unchanged when disabled or unconfigured. -/
def encrypt (st : EncState) (text : String) : String :=
  if !st.enabled then text
  else
    match st.fernet with
    | none => text
    | some f => f.enc text

/-- `decrypt`: returns the input unchanged when disabled or unconfigured, and
returns the token itself when the cipher raises `InvalidToken`. -/
def decrypt (st : EncState) (token : String) : String :=
  if !st.enabled then token
  else
    match st.fernet with
    | none => token
    | some f =>
      match f.dec token with
      | some s => s
      | none => token

/-! ### Conversation Store query (tgbot/db/repositories/conversation.py) -/

/-- SQL equality of a nullable `mentor_id` column against a value: a NULL
column never compares equal. -/
def mentorIdMatches (row : Option Nat) (mid : Nat) : Bool :=
  match row with
  | some v => v == mid
  | none => false

/-- Insertion into a list kept newest-first by `created_at`. -/
def insertDesc (m : DBConversationMessage) :
    List DBConversationMessage → List DBConversationMessage
  | [] => [m]
  | x :: xs =>
    if x.created_at ≤ m.created_at then m :: x :: xs else x :: insertDesc m xs

/-- Sort newest-first by `created_at` (the `ORDER BY created_at DESC`). -/
def sortDesc : List DBConversationMessage → List DBConversationMessage
  | [] => []
  | x :: xs => insertDesc x (sortDesc xs)

/-- Insertion into a list kept oldest-first by `created_at`. -/
def insertAsc (m : DBConversationMessage) :
    List DBConversationMessage → List DBConversationMessage
  | [] => [m]
  | x :: xs =>
    if m.created_at ≤ x.created_at then m :: x :: xs else x :: insertAsc m xs

/-- Sort oldest-first by `created_at` (the final `sorted(...)` call). -/
def sortAsc : List DBConversationMessage → List DBConversationMessage
  | [] => []
  | x :: xs => insertAsc x (sortAsc xs)

/-- `ConversationRepository.get_recent_messages(user_id, mentor_id, limit)`:
filter by user and mentor with SQL null semantics, take the newest `limit`
rows, and return them oldest-first.  The decrypt veil applied to the returned
contents is the identity on the modelled rows. -/
def get_recent_messages (store : List DBConversationMessage)
    (user_id mentor_id : Nat) (limit : Nat) : List DBConversationMessage :=
  let filtered := store.filter fun m =>
    m.user_id == user_id && mentorIdMatches m.mentor_id mentor_id
  sortAsc ((sortDesc filtered).take limit)

/-! ### Short-term history shape -/

/-- The history shape maintained by the dialogue flow: a (possibly empty)
sequence of user/assistant pairs.  `get_about_user` initializes the FSM
history to one such pair, and a fresh state yields the empty list. -/
def isUAPairs : List Msg → Bool
  | [] => true
  | [_] => false
  | u :: a :: rest =>
    u.role == "user" && a.role == "assistant" && isUAPairs rest

/-! ### Gate theorems -/

/-- C1: a non-banned user with `is_sub = true` and a `sub_until` strictly in
the past is demoted: the flag is flipped, exactly one user-row update is
persisted, the subscription-expired outcome (with the upsell keyboard) is
emitted, never the free-tier outcome, and this happens for every message
count, so the expiry check precedes the free-tier count check. -/
theorem expired_subscriber_demoted (env : DialogueEnv) (u : DBUser) (t : Nat)
    (hu : env.user = some u) (hban : u.is_ban = false)
    (hsub : u.is_sub = true) (huntil : u.sub_until = some t)
    (ht : t < env.now) :
    dialogue_process env =
      { outcome := Outcome.subExpired,
        userWrites := [{ u with is_sub := false }], vectorWrites := [],
        convWrites := [], modelInput := [], newHistory := [],
        stateCleared := true } := by
  have hc : subExpiredCheck u env.now = true := by
    simp [subExpiredCheck, hsub, huntil, ht]
  simp [dialogue_process, hu, hban, hc]

/-- Witness for C1 at a concrete expired subscriber observed at time 100. -/
theorem expired_subscriber_demoted_witness :
    dialogue_process
      { tg_id := 5, text := "hi", now := 100,
        user := some
          { id := 1, telegram_id := some 5, brief_background := "b",
            goal := "g", sub_until := some 10, is_sub := true,
            is_reg := true, is_ban := false },
        msgCount := 99, paymentsEnabled := true, price := 19900,
        mentor := none, history := [], embedCap := none, similar := [],
        replyCap := none, replyEmbedCap := none } =
      { outcome := Outcome.subExpired,
        userWrites :=
          [{ id := 1, telegram_id := some 5, brief_background := "b",
             goal := "g", sub_until := some 10, is_sub := false,
             is_reg := true, is_ban := false }],
        vectorWrites := [], convWrites := [], modelInput := [],
        newHistory := [], stateCleared := true } :=
  expired_subscriber_demoted _ _ 10 rfl rfl rfl rfl (by decide)

/-- C3: a banned user gets the ban outcome and nothing else — no user-row
write (in particular the subscription flag of a banned-and-expired user is
not flipped), no store writes, no model call, state untouched. -/
theorem banned_user_short_circuits (env : DialogueEnv) (u : DBUser)
    (hu : env.user = some u) (hban : u.is_ban = true) :
    dialogue_process env =
      { outcome := Outcome.banned, userWrites := [], vectorWrites := [],
        convWrites := [], modelInput := [], newHistory := env.history,
        stateCleared := false } := by
  simp [dialogue_process, hu, hban]

/-- Witness for C3 at a concrete banned-and-expired user. -/
theorem banned_user_short_circuits_witness :
    dialogue_process
      { tg_id := 5, text := "hi", now := 100,
        user := some
          { id := 1, telegram_id := some 5, brief_background := "b",
            goal := "g", sub_until := some 10, is_sub := true,
            is_reg := true, is_ban := true },
        msgCount := 0, paymentsEnabled := true, price := 19900,
        mentor := none, history := [], embedCap := none, similar := [],
        replyCap := none, replyEmbedCap := none } =
      { outcome := Outcome.banned, userWrites := [], vectorWrites := [],
        convWrites := [], modelInput := [], newHistory := [],
        stateCleared := false } :=
  banned_user_short_circuits _ _ rfl rfl

/-- The post-gate turn only ever produces the mentor-not-found, AI-error or
replied outcomes. -/
theorem run_turn_outcome (u : DBUser) (env : DialogueEnv) :
    (run_turn u env).outcome = Outcome.mentorNotFound ∨
    (run_turn u env).outcome = Outcome.aiError ∨
    ∃ r, (run_turn u env).outcome = Outcome.replied r := by
  rcases hm : env.mentor with _ | m
  · exact Or.inl (by simp [run_turn, hm])
  rcases he : create_embeddings env.embedCap env.text with _ | e
  · exact Or.inr (Or.inl (by simp [run_turn, hm, he]))
  rcases hr : reply_from_mentor env.replyCap with _ | resp
  · exact Or.inr (Or.inl (by simp [run_turn, hm, he, hr]))
  rcases he2 : create_embeddings env.replyEmbedCap resp with _ | e2
  · exact Or.inr (Or.inl (by simp [run_turn, hm, he, hr, he2]))
  · exact Or.inr (Or.inr ⟨resp, by simp [run_turn, hm, he, hr, he2]⟩)

/-- Witness for run_turn_outcome (it has no Prop hypothesis; kept for
uniform evaluation at a concrete input). -/
theorem run_turn_outcome_eval :
    (run_turn
      { id := 1, telegram_id := some 5, brief_background := "b", goal := "g",
        sub_until := none, is_sub := true, is_reg := true, is_ban := false }
      { tg_id := 5, text := "hi", now := 100, user := none, msgCount := 0,
        paymentsEnabled := true, price := 0, mentor := none, history := [],
        embedCap := none, similar := [], replyCap := none,
        replyEmbedCap := none }).outcome = Outcome.mentorNotFound := by
  decide

/-- C6: for a non-banned user, the free-tier branch fires exactly on
`count > 10` and only for non-subscribers: with `count ≤ 10` (in particular
exactly 10) the message passes the gate, and a subscriber never sees the
limit branch for any count. -/
theorem free_tier_boundary (env : DialogueEnv) (u : DBUser)
    (hu : env.user = some u) (hban : u.is_ban = false) :
    (u.is_sub = false → 10 < env.msgCount →
      (dialogue_process env).outcome =
        (if env.paymentsEnabled then Outcome.limitUpsell (env.price / 100)
         else Outcome.limitPaymentsDisabled)) ∧
    (u.is_sub = false → env.msgCount ≤ 10 →
      (∀ p, (dialogue_process env).outcome ≠ Outcome.limitUpsell p) ∧
      (dialogue_process env).outcome ≠ Outcome.limitPaymentsDisabled) ∧
    (u.is_sub = true →
      (∀ p, (dialogue_process env).outcome ≠ Outcome.limitUpsell p) ∧
      (dialogue_process env).outcome ≠ Outcome.limitPaymentsDisabled) := by
  refine ⟨?_, ?_, ?_⟩
  · intro hsub hcount
    have hexp : subExpiredCheck u env.now = false := by
      simp [subExpiredCheck, hsub]
    have hlim : freeLimitCheck u env.msgCount = true := by
      simp [freeLimitCheck, hsub, hcount]
    by_cases hp : env.paymentsEnabled <;>
      simp [dialogue_process, hu, hban, hexp, hlim, hp]
  · intro hsub hcount
    have hexp : subExpiredCheck u env.now = false := by
      simp [subExpiredCheck, hsub]
    have hlim : freeLimitCheck u env.msgCount = false := by
      simp [freeLimitCheck, hsub]
      omega
    have heq : dialogue_process env = run_turn u env := by
      simp [dialogue_process, hu, hban, hexp, hlim]
    rw [heq]
    rcases run_turn_outcome u env with h | h | ⟨r, h⟩ <;>
      rw [h] <;> exact ⟨fun p => by simp, by simp⟩
  · intro hsub
    have hlim : freeLimitCheck u env.msgCount = false := by
      simp [freeLimitCheck, hsub]
    cases hexp : subExpiredCheck u env.now with
    | true =>
      have heq : (dialogue_process env).outcome = Outcome.subExpired := by
        simp [dialogue_process, hu, hban, hexp]
      rw [heq]
      exact ⟨fun p => by simp, by simp⟩
    | false =>
      have heq : dialogue_process env = run_turn u env := by
        simp [dialogue_process, hu, hban, hexp, hlim]
      rw [heq]
      rcases run_turn_outcome u env with h | h | ⟨r, h⟩ <;>
        rw [h] <;> exact ⟨fun p => by simp, by simp⟩

/-- Witness for C6: a non-banned free-tier user with exactly 10 persisted
messages passes the gate, and with 11 the upsell branch fires. -/
theorem free_tier_boundary_witness :
    ((10 : Nat) ≤ 10) ∧
    (∀ p, (dialogue_process
      { tg_id := 5, text := "hi", now := 100,
        user := some
          { id := 1, telegram_id := some 5, brief_background := "b",
            goal := "g", sub_until := none, is_sub := false,
            is_reg := true, is_ban := false },
        msgCount := 10, paymentsEnabled := true, price := 19900,
        mentor := none, history := [], embedCap := none, similar := [],
        replyCap := none, replyEmbedCap := none }).outcome ≠
        Outcome.limitUpsell p) ∧
    (dialogue_process
      { tg_id := 5, text := "hi", now := 100,
        user := some
          { id := 1, telegram_id := some 5, brief_background := "b",
            goal := "g", sub_until := none, is_sub := false,
            is_reg := true, is_ban := false },
        msgCount := 10, paymentsEnabled := true, price := 19900,
        mentor := none, history := [], embedCap := none, similar := [],
        replyCap := none, replyEmbedCap := none }).outcome ≠
        Outcome.limitPaymentsDisabled :=
  ⟨by decide,
   (free_tier_boundary _ _ rfl rfl).2.1 rfl (by decide)⟩

/-! ### Turn persistence -/

/-- C8: whenever the reply-generation step fails (capability raises or the
reply is blank), the invocation writes no conversation-store row at all —
the persisted message count is unchanged and no user-only row exists. -/
theorem reply_failure_no_conv_writes (env : DialogueEnv)
    (h : reply_from_mentor env.replyCap = none) :
    (dialogue_process env).convWrites = [] := by
  rcases hu : env.user with _ | u
  · simp [dialogue_process, hu]
  rcases hban : u.is_ban with _ | _
  · rcases hexp : subExpiredCheck u env.now with _ | _
    · rcases hlim : freeLimitCheck u env.msgCount with _ | _
      · have heq : dialogue_process env = run_turn u env := by
          simp [dialogue_process, hu, hban, hexp, hlim]
        rw [heq]
        rcases hm : env.mentor with _ | m
        · simp [run_turn, hm]
        rcases he : create_embeddings env.embedCap env.text with _ | e
        · simp [run_turn, hm, he]
        · simp [run_turn, hm, he, h]
      · by_cases hp : env.paymentsEnabled <;>
          simp [dialogue_process, hu, hban, hexp, hlim, hp]
    · simp [dialogue_process, hu, hban, hexp]
  · simp [dialogue_process, hu, hban]

/-- Witness for C8: a concrete turn whose reply capability fails writes no
conversation rows. -/
theorem reply_failure_no_conv_writes_witness :
    (dialogue_process
      { tg_id := 5, text := "hi", now := 100,
        user := some
          { id := 1, telegram_id := some 5, brief_background := "b",
            goal := "g", sub_until := none, is_sub := true,
            is_reg := true, is_ban := false },
        msgCount := 3, paymentsEnabled := true, price := 19900,
        mentor := some
          { id := 1, name := "M", mentor_age := 40, background := "b",
            recent_events := "r", personality_style := "p",
            greeting := "hello", sys_prompt_summary := "s" },
        history := [], embedCap := some [1], similar := [],
        replyCap := none, replyEmbedCap := some [2] }).convWrites = [] :=
  reply_failure_no_conv_writes _ rfl

/-- The fully successful turn, written out: all gate checks pass, the
embedding, the reply and the reply embedding all succeed, and the result is
the complete observable record of `dialogue_process`. -/
theorem dialogue_success_eq (env : DialogueEnv) (u : DBUser) (m : DBMentor)
    (e1 : List Int) (resp : String) (e2 : List Int)
    (hu : env.user = some u) (hban : u.is_ban = false)
    (hexp : subExpiredCheck u env.now = false)
    (hlim : freeLimitCheck u env.msgCount = false)
    (hm : env.mentor = some m)
    (he : create_embeddings env.embedCap env.text = some e1)
    (hr : reply_from_mentor env.replyCap = some resp)
    (he2 : create_embeddings env.replyEmbedCap resp = some e2) :
    dialogue_process env =
      { outcome := Outcome.replied resp,
        userWrites := [],
        vectorWrites := [(env.tg_id, "user", env.text),
                         (env.tg_id, "assistant", resp)],
        convWrites :=
          [{ user_id := u.id, mentor_id := none, role := "user",
             content := env.text, is_summary := false, created_at := env.now },
           { user_id := u.id, mentor_id := none, role := "assistant",
             content := resp, is_summary := false, created_at := env.now }],
        modelInput := reply_messages (mentor_json_str m u)
          ((if env.similar.isEmpty then []
            else [{ role := "system",
                    content := String.intercalate "\n" env.similar }]) ++
           env.history) env.text,
        newHistory :=
          if (env.history ++ [Msg.mk "user" env.text,
              Msg.mk "assistant" resp]).length > 20
          then (env.history ++ [Msg.mk "user" env.text,
              Msg.mk "assistant" resp]).drop 2
          else env.history ++ [Msg.mk "user" env.text,
              Msg.mk "assistant" resp],
        stateCleared := false } := by
  have heq : dialogue_process env = run_turn u env := by
    simp [dialogue_process, hu, hban, hexp, hlim]
  rw [heq]
  simp [run_turn, hm, he, hr, he2]

/-- Witness for dialogue_success_eq at a concrete successful turn. -/
theorem dialogue_success_eq_witness :
    dialogue_process
      { tg_id := 5, text := "hi", now := 100,
        user := some
          { id := 1, telegram_id := some 5, brief_background := "b",
            goal := "g", sub_until := none, is_sub := true,
            is_reg := true, is_ban := false },
        msgCount := 3, paymentsEnabled := true, price := 19900,
        mentor := some
          { id := 1, name := "M", mentor_age := 40, background := "b",
            recent_events := "r", personality_style := "p",
            greeting := "hello", sys_prompt_summary := "s" },
        history := [], embedCap := some [1], similar := ["old"],
        replyCap := some "ok", replyEmbedCap := some [2] } =
      { outcome := Outcome.replied "ok",
        userWrites := [],
        vectorWrites := [(5, "user", "hi"), (5, "assistant", "ok")],
        convWrites :=
          [{ user_id := 1, mentor_id := none, role := "user",
             content := "hi", is_summary := false, created_at := 100 },
           { user_id := 1, mentor_id := none, role := "assistant",
             content := "ok", is_summary := false, created_at := 100 }],
        modelInput :=
          [{ role := "system", content := mentor_json_str
              { id := 1, name := "M", mentor_age := 40, background := "b",
                recent_events := "r", personality_style := "p",
                greeting := "hello", sys_prompt_summary := "s" }
              { id := 1, telegram_id := some 5, brief_background := "b",
                goal := "g", sub_until := none, is_sub := true,
                is_reg := true, is_ban := false } },
           { role := "system", content := "old" },
           { role := "user", content := "hi" }],
        newHistory := [{ role := "user", content := "hi" },
                       { role := "assistant", content := "ok" }],
        stateCleared := false } := by
  have h := dialogue_success_eq
    { tg_id := 5, text := "hi", now := 100,
      user := some
        { id := 1, telegram_id := some 5, brief_background := "b",
          goal := "g", sub_until := none, is_sub := true,
          is_reg := true, is_ban := false },
      msgCount := 3, paymentsEnabled := true, price := 19900,
      mentor := some
        { id := 1, name := "M", mentor_age := 40, background := "b",
          recent_events := "r", personality_style := "p",
          greeting := "hello", sys_prompt_summary := "s" },
      history := [], embedCap := some [1], similar := ["old"],
      replyCap := some "ok", replyEmbedCap := some [2] }
    { id := 1, telegram_id := some 5, brief_background := "b",
      goal := "g", sub_until := none, is_sub := true,
      is_reg := true, is_ban := false }
    { id := 1, name := "M", mentor_age := 40, background := "b",
      recent_events := "r", personality_style := "p",
      greeting := "hello", sys_prompt_summary := "s" }
    [1] "ok" [2] rfl rfl (by decide) (by decide) rfl (by decide) (by decide)
    (by decide)
  rw [h]
  decide

/-- C2 (amended): an initial-embedding failure writes nothing to either
store, and the conversation store is all-or-nothing for the turn; but the
user turn is written to vector memory before the reply call, so a
reply-generation or reply-embedding failure leaves exactly that one vector
entry while the conversation store stays empty; on full success both stores
receive both turns. -/
theorem turn_persistence (env : DialogueEnv) (u : DBUser) (m : DBMentor)
    (hu : env.user = some u) (hban : u.is_ban = false)
    (hexp : subExpiredCheck u env.now = false)
    (hlim : freeLimitCheck u env.msgCount = false)
    (hm : env.mentor = some m) :
    (create_embeddings env.embedCap env.text = none →
      (dialogue_process env).vectorWrites = [] ∧
      (dialogue_process env).convWrites = []) ∧
    (∀ e1, create_embeddings env.embedCap env.text = some e1 →
      reply_from_mentor env.replyCap = none →
      (dialogue_process env).vectorWrites = [(env.tg_id, "user", env.text)] ∧
      (dialogue_process env).convWrites = []) ∧
    (∀ e1 resp, create_embeddings env.embedCap env.text = some e1 →
      reply_from_mentor env.replyCap = some resp →
      create_embeddings env.replyEmbedCap resp = none →
      (dialogue_process env).vectorWrites = [(env.tg_id, "user", env.text)] ∧
      (dialogue_process env).convWrites = []) ∧
    (∀ e1 resp e2, create_embeddings env.embedCap env.text = some e1 →
      reply_from_mentor env.replyCap = some resp →
      create_embeddings env.replyEmbedCap resp = some e2 →
      (dialogue_process env).vectorWrites =
        [(env.tg_id, "user", env.text), (env.tg_id, "assistant", resp)] ∧
      (dialogue_process env).convWrites =
        [{ user_id := u.id, mentor_id := none, role := "user",
           content := env.text, is_summary := false, created_at := env.now },
         { user_id := u.id, mentor_id := none, role := "assistant",
           content := resp, is_summary := false, created_at := env.now }]) := by
  have heq : dialogue_process env = run_turn u env := by
    simp [dialogue_process, hu, hban, hexp, hlim]
  refine ⟨?_, ?_, ?_, ?_⟩
  · intro he
    rw [heq]
    constructor <;> simp [run_turn, hm, he]
  · intro e1 he hr
    rw [heq]
    constructor <;> simp [run_turn, hm, he, hr]
  · intro e1 resp he hr he2
    rw [heq]
    constructor <;> simp [run_turn, hm, he, hr, he2]
  · intro e1 resp e2 he hr he2
    rw [heq]
    constructor <;> simp [run_turn, hm, he, hr, he2]

/-- Witness for the amended C2: at a concrete turn whose reply capability
fails, vector memory holds exactly the user turn and the conversation store
holds nothing. -/
theorem turn_persistence_witness :
    (dialogue_process
      { tg_id := 5, text := "hi", now := 100,
        user := some
          { id := 1, telegram_id := some 5, brief_background := "b",
            goal := "g", sub_until := none, is_sub := true,
            is_reg := true, is_ban := false },
        msgCount := 3, paymentsEnabled := true, price := 19900,
        mentor := some
          { id := 1, name := "M", mentor_age := 40, background := "b",
            recent_events := "r", personality_style := "p",
            greeting := "hello", sys_prompt_summary := "s" },
        history := [], embedCap := some [1], similar := [],
        replyCap := none, replyEmbedCap := some [2] }).vectorWrites =
      [(5, "user", "hi")] ∧
    (dialogue_process
      { tg_id := 5, text := "hi", now := 100,
        user := some
          { id := 1, telegram_id := some 5, brief_background := "b",
            goal := "g", sub_until := none, is_sub := true,
            is_reg := true, is_ban := false },
        msgCount := 3, paymentsEnabled := true, price := 19900,
        mentor := some
          { id := 1, name := "M", mentor_age := 40, background := "b",
            recent_events := "r", personality_style := "p",
            greeting := "hello", sys_prompt_summary := "s" },
        history := [], embedCap := some [1], similar := [],
        replyCap := none, replyEmbedCap := some [2] }).convWrites = [] :=
  (turn_persistence _
    { id := 1, telegram_id := some 5, brief_background := "b",
      goal := "g", sub_until := none, is_sub := true,
      is_reg := true, is_ban := false }
    { id := 1, name := "M", mentor_age := 40, background := "b",
      recent_events := "r", personality_style := "p",
      greeting := "hello", sys_prompt_summary := "s" }
    rfl rfl (by decide) (by decide) rfl).2.1 [1] (by decide) rfl

/-- Refutation of C2 as stated: a concrete turn on which reply generation
fails, yet the vector store received a write — the turn did not commit
nothing to both stores. -/
theorem turn_persistence_counterexample :
    (dialogue_process
      { tg_id := 5, text := "hi", now := 100,
        user := some
          { id := 1, telegram_id := some 5, brief_background := "b",
            goal := "g", sub_until := none, is_sub := true,
            is_reg := true, is_ban := false },
        msgCount := 3, paymentsEnabled := true, price := 19900,
        mentor := some
          { id := 1, name := "M", mentor_age := 40, background := "b",
            recent_events := "r", personality_style := "p",
            greeting := "hello", sys_prompt_summary := "s" },
        history := [], embedCap := some [1], similar := [],
        replyCap := none, replyEmbedCap := some [2] }).outcome =
      Outcome.aiError ∧
    (dialogue_process
      { tg_id := 5, text := "hi", now := 100,
        user := some
          { id := 1, telegram_id := some 5, brief_background := "b",
            goal := "g", sub_until := none, is_sub := true,
            is_reg := true, is_ban := false },
        msgCount := 3, paymentsEnabled := true, price := 19900,
        mentor := some
          { id := 1, name := "M", mentor_age := 40, background := "b",
            recent_events := "r", personality_style := "p",
            greeting := "hello", sys_prompt_summary := "s" },
        history := [], embedCap := some [1], similar := [],
        replyCap := none, replyEmbedCap := some [2] }).vectorWrites ≠ [] := by
  decide

/-! ### Secret Store theorems -/

/-- C9: under the library contract that the cipher inverts its own output,
decrypt after encrypt is the identity for every text and either switch
position; and with encryption disabled both encrypt and decrypt are the
identity, so decrypting non-ciphertext returns the input unchanged. -/
theorem encrypt_decrypt_roundtrip (f : Fernet) (enabled : Bool) (text : String)
    (hrt : ∀ s, f.dec (f.enc s) = some s) :
    decrypt (setup f enabled) (encrypt (setup f enabled) text) = text ∧
    (enabled = false →
      (∀ s, encrypt (setup f enabled) s = s) ∧
      (∀ tok, decrypt (setup f enabled) tok = tok)) := by
  constructor
  · cases enabled with
    | false => simp [setup, encrypt, decrypt]
    | true => simp [setup, encrypt, decrypt, hrt]
  · rintro rfl
    exact ⟨fun s => by simp [setup, encrypt],
           fun tok => by simp [setup, decrypt]⟩

/-- Witness for C9 with a concrete invertible cipher, in both switch
positions. -/
theorem encrypt_decrypt_roundtrip_witness :
    (decrypt (setup { enc := fun s => s, dec := fun s => some s } true)
      (encrypt (setup { enc := fun s => s, dec := fun s => some s } true)
        "abc") = "abc") ∧
    (decrypt (setup { enc := fun s => s, dec := fun s => some s } false)
      (encrypt (setup { enc := fun s => s, dec := fun s => some s } false)
        "abc") = "abc") :=
  ⟨(encrypt_decrypt_roundtrip
      { enc := fun s => s, dec := fun s => some s }
      true "abc" (fun _ => rfl)).1,
   (encrypt_decrypt_roundtrip
      { enc := fun s => s, dec := fun s => some s }
      false "abc" (fun _ => rfl)).1⟩

/-! ### Expiry Sweep theorem -/

/-- C5 fails on the code: neither sweep loop catches send errors.  At a
concrete iteration with two expired subscribers where the send to the first
fails, the expired sweep aborts — the second user is never notified nor
demoted, and the staged demotion of the first is never committed; the unpaid
sweep over two registered unpaid users aborts the same way.  (The spec
demands the failure be caught and the loop continue.) -/
theorem sweep_send_failure_aborts :
    notify_expired_subscriptions_iter 50 (fun tg => tg != 1)
      [{ id := 1, telegram_id := some 1, brief_background := "", goal := "",
         sub_until := some 0, is_sub := true, is_reg := true, is_ban := false },
       { id := 2, telegram_id := some 2, brief_background := "", goal := "",
         sub_until := some 0, is_sub := true, is_reg := true, is_ban := false }] =
      { sent := [],
        updates := [{ id := 1, telegram_id := some 1, brief_background := "",
                      goal := "", sub_until := some 0, is_sub := false,
                      is_reg := true, is_ban := false }],
        committed := false, aborted := true } ∧
    notify_unpaid_registered_users_iter (fun _ => "promo") (fun tg => tg != 1)
      [{ id := 1, telegram_id := some 1, brief_background := "", goal := "",
         sub_until := none, is_sub := false, is_reg := true, is_ban := false },
       { id := 2, telegram_id := some 2, brief_background := "", goal := "",
         sub_until := none, is_sub := false, is_reg := true, is_ban := false }] =
      { sent := [], updates := [], committed := false, aborted := true } := by
  decide

/-! ### Conversation Store query theorems -/

theorem mem_insertDesc {m x : DBConversationMessage}
    {l : List DBConversationMessage} (h : m ∈ insertDesc x l) :
    m = x ∨ m ∈ l := by
  induction l with
  | nil => simpa [insertDesc] using h
  | cons y ys ih =>
    simp only [insertDesc] at h
    split at h
    · simpa using h
    · rcases List.mem_cons.1 h with h1 | h2
      · exact Or.inr (by simp [h1])
      · rcases ih h2 with h3 | h4
        · exact Or.inl h3
        · exact Or.inr (List.mem_cons_of_mem _ h4)

theorem mem_sortDesc {m : DBConversationMessage}
    {l : List DBConversationMessage} (h : m ∈ sortDesc l) : m ∈ l := by
  induction l with
  | nil => simp [sortDesc] at h
  | cons y ys ih =>
    simp only [sortDesc] at h
    rcases mem_insertDesc h with h1 | h2
    · simp [h1]
    · exact List.mem_cons_of_mem _ (ih h2)

theorem mem_insertAsc {m x : DBConversationMessage}
    {l : List DBConversationMessage} (h : m ∈ insertAsc x l) :
    m = x ∨ m ∈ l := by
  induction l with
  | nil => simpa [insertAsc] using h
  | cons y ys ih =>
    simp only [insertAsc] at h
    split at h
    · simpa using h
    · rcases List.mem_cons.1 h with h1 | h2
      · exact Or.inr (by simp [h1])
      · rcases ih h2 with h3 | h4
        · exact Or.inl h3
        · exact Or.inr (List.mem_cons_of_mem _ h4)

theorem mem_sortAsc {m : DBConversationMessage}
    {l : List DBConversationMessage} (h : m ∈ sortAsc l) : m ∈ l := by
  induction l with
  | nil => simp [sortAsc] at h
  | cons y ys ih =>
    simp only [sortAsc] at h
    rcases mem_insertAsc h with h1 | h2
    · simp [h1]
    · exact List.mem_cons_of_mem _ (ih h2)

/-- Every row returned by the recent-messages query carries exactly the
queried mentor id (SQL null semantics: a NULL `mentor_id` never matches). -/
theorem mem_get_recent_messages (store : List DBConversationMessage)
    (uid mid lim : Nat) (m : DBConversationMessage)
    (h : m ∈ get_recent_messages store uid mid lim) :
    m.mentor_id = some mid := by
  unfold get_recent_messages at h
  have h1 := mem_sortAsc h
  have h2 := List.mem_of_mem_take h1
  have h3 := mem_sortDesc h2
  have h4 := List.of_mem_filter h3
  simp only [Bool.and_eq_true] at h4
  rcases h4 with ⟨-, h5⟩
  unfold mentorIdMatches at h5
  cases hm : m.mentor_id with
  | none => rw [hm] at h5; cases h5
  | some v =>
    rw [hm] at h5
    simp only [beq_iff_eq] at h5
    rw [h5]

/-- C10: every conversation row the dialogue path persists has a null mentor
reference, every row the recent-messages query returns for a non-null mentor
id has that mentor id, and hence no dialogue-path row is ever returned by
that query. -/
theorem dialogue_rows_invisible_to_mentor_query :
    (∀ env m, m ∈ (dialogue_process env).convWrites → m.mentor_id = none) ∧
    (∀ store uid mid lim m, m ∈ get_recent_messages store uid mid lim →
      m.mentor_id = some mid) ∧
    (∀ env store uid mid lim m, m ∈ (dialogue_process env).convWrites →
      m ∉ get_recent_messages store uid mid lim) := by
  have hwrites : ∀ env m, m ∈ (dialogue_process env).convWrites →
      m.mentor_id = none := by
    intro env m h
    rcases hu : env.user with _ | u
    · simp [dialogue_process, hu] at h
    rw [dialogue_process] at h
    rw [hu] at h
    dsimp only at h
    by_cases hban : u.is_ban
    · simp [hban] at h
    rw [if_neg hban] at h
    by_cases hexp : subExpiredCheck u env.now
    · simp [hexp] at h
    rw [if_neg hexp] at h
    by_cases hlim : freeLimitCheck u env.msgCount
    · rw [if_pos hlim] at h
      by_cases hp : env.paymentsEnabled <;> simp [hp] at h
    rw [if_neg hlim] at h
    rcases hm : env.mentor with _ | mtr
    · simp [run_turn, hm] at h
    rcases he : create_embeddings env.embedCap env.text with _ | e
    · simp [run_turn, hm, he] at h
    rcases hr : reply_from_mentor env.replyCap with _ | resp
    · simp [run_turn, hm, he, hr] at h
    rcases he2 : create_embeddings env.replyEmbedCap resp with _ | e2
    · simp [run_turn, hm, he, hr, he2] at h
    · simp only [run_turn, hm, he, hr, he2] at h
      rcases List.mem_cons.1 h with h1 | h2
      · rw [h1]
      · rcases List.mem_cons.1 h2 with h3 | h4
        · rw [h3]
        · cases h4
  refine ⟨hwrites, fun store uid mid lim m h =>
    mem_get_recent_messages store uid mid lim m h, ?_⟩
  intro env store uid mid lim m hw hq
  have h1 := hwrites env m hw
  have h2 := mem_get_recent_messages store uid mid lim m hq
  rw [h1] at h2
  cases h2

/-- Witness for C10: a concrete row written by a successful turn is absent
from a concrete mentor-scoped query over a store containing it. -/
theorem dialogue_rows_invisible_witness :
    ({ user_id := 1, mentor_id := none, role := "user", content := "hi",
       is_summary := false, created_at := 100 } : DBConversationMessage) ∈
      (dialogue_process
        { tg_id := 5, text := "hi", now := 100,
          user := some
            { id := 1, telegram_id := some 5, brief_background := "b",
              goal := "g", sub_until := none, is_sub := true,
              is_reg := true, is_ban := false },
          msgCount := 3, paymentsEnabled := true, price := 19900,
          mentor := some
            { id := 7, name := "M", mentor_age := 40, background := "b",
              recent_events := "r", personality_style := "p",
              greeting := "hello", sys_prompt_summary := "s" },
          history := [], embedCap := some [1], similar := [],
          replyCap := some "ok", replyEmbedCap := some [2] }).convWrites ∧
    ({ user_id := 1, mentor_id := none, role := "user", content := "hi",
       is_summary := false, created_at := 100 } : DBConversationMessage) ∉
      get_recent_messages
        [{ user_id := 1, mentor_id := none, role := "user", content := "hi",
           is_summary := false, created_at := 100 }] 1 7 10 :=
  ⟨by decide,
   dialogue_rows_invisible_to_mentor_query.2.2
     { tg_id := 5, text := "hi", now := 100,
       user := some
         { id := 1, telegram_id := some 5, brief_background := "b",
           goal := "g", sub_until := none, is_sub := true,
           is_reg := true, is_ban := false },
       msgCount := 3, paymentsEnabled := true, price := 19900,
       mentor := some
         { id := 7, name := "M", mentor_age := 40, background := "b",
           recent_events := "r", personality_style := "p",
           greeting := "hello", sys_prompt_summary := "s" },
       history := [], embedCap := some [1], similar := [],
       replyCap := some "ok", replyEmbedCap := some [2] }
     [{ user_id := 1, mentor_id := none, role := "user", content := "hi",
        is_summary := false, created_at := 100 }] 1 7 10
     { user_id := 1, mentor_id := none, role := "user", content := "hi",
       is_summary := false, created_at := 100 }
     (by decide)⟩

/-! ### Short-term history theorems -/

theorem isUAPairs_length_even : ∀ l : List Msg, isUAPairs l = true →
    l.length % 2 = 0
  | [], _ => rfl
  | [_], h => by simp [isUAPairs] at h
  | _ :: _ :: rest, h => by
    simp only [isUAPairs, Bool.and_eq_true, beq_iff_eq] at h
    have := isUAPairs_length_even rest h.2
    simp only [List.length_cons]
    omega

theorem isUAPairs_append_pair : ∀ l : List Msg, isUAPairs l = true →
    ∀ x y : String,
      isUAPairs (l ++ [Msg.mk "user" x, Msg.mk "assistant" y]) = true
  | [], _, x, y => by simp [isUAPairs]
  | [_], h, _, _ => by simp [isUAPairs] at h
  | a :: b :: rest, h, x, y => by
    simp only [isUAPairs, Bool.and_eq_true, beq_iff_eq] at h
    simp only [List.cons_append, isUAPairs, Bool.and_eq_true, beq_iff_eq]
    exact ⟨⟨h.1.1, h.1.2⟩, isUAPairs_append_pair rest h.2 x y⟩

theorem isUAPairs_drop_two : ∀ l : List Msg, isUAPairs l = true →
    isUAPairs (l.drop 2) = true
  | [], _ => rfl
  | [_], h => by simp [isUAPairs] at h
  | _ :: _ :: rest, h => by
    simp only [isUAPairs, Bool.and_eq_true] at h
    simpa using h.2

theorem isUAPairs_head : ∀ (m : Msg) (rest : List Msg),
    isUAPairs (m :: rest) = true → m.role = "user"
  | m, [], h => by simp [isUAPairs] at h
  | m, _ :: _, h => by
    simp only [isUAPairs, Bool.and_eq_true, beq_iff_eq] at h
    exact h.1.1

/-- C4: after a successful turn starting from a history that is a sequence
of user/assistant pairs of length at most 20, the stored history is even,
at most 20 long, still a sequence of user/assistant pairs, starts with a
user turn, and the trim — firing exactly when the extended history exceeds
20 — removes exactly the two oldest entries from the head. -/
theorem history_invariant_after_turn (env : DialogueEnv) (u : DBUser)
    (m : DBMentor) (e1 : List Int) (resp : String) (e2 : List Int)
    (hu : env.user = some u) (hban : u.is_ban = false)
    (hexp : subExpiredCheck u env.now = false)
    (hlim : freeLimitCheck u env.msgCount = false)
    (hm : env.mentor = some m)
    (he : create_embeddings env.embedCap env.text = some e1)
    (hr : reply_from_mentor env.replyCap = some resp)
    (he2 : create_embeddings env.replyEmbedCap resp = some e2)
    (hhist : isUAPairs env.history = true)
    (hlen : env.history.length ≤ 20) :
    (dialogue_process env).newHistory.length % 2 = 0 ∧
    (dialogue_process env).newHistory.length ≤ 20 ∧
    isUAPairs (dialogue_process env).newHistory = true ∧
    (dialogue_process env).newHistory.head?.map Msg.role = some "user" ∧
    (env.history.length + 2 > 20 →
      (dialogue_process env).newHistory =
        (env.history ++ [Msg.mk "user" env.text,
          Msg.mk "assistant" resp]).drop 2) ∧
    (env.history.length + 2 ≤ 20 →
      (dialogue_process env).newHistory =
        env.history ++ [Msg.mk "user" env.text, Msg.mk "assistant" resp]) := by
  have hd := dialogue_success_eq env u m e1 resp e2 hu hban hexp hlim hm he hr he2
  rw [hd]
  dsimp only
  set L := env.history ++ [Msg.mk "user" env.text, Msg.mk "assistant" resp]
    with hL
  have hLpairs : isUAPairs L = true := isUAPairs_append_pair _ hhist _ _
  have hLlen : L.length = env.history.length + 2 := by
    simp [hL]
  have hLeven : L.length % 2 = 0 := isUAPairs_length_even _ hLpairs
  by_cases hbig : L.length > 20
  · rw [if_pos hbig]
    have hdroplen : (L.drop 2).length = env.history.length := by
      simp [List.length_drop, hLlen]
    have hdrop_pairs : isUAPairs (L.drop 2) = true := isUAPairs_drop_two _ hLpairs
    have hne : L.drop 2 ≠ [] := by
      intro hcon
      have : (L.drop 2).length = 0 := by rw [hcon]; rfl
      rw [hdroplen] at this
      omega
    refine ⟨?_, ?_, hdrop_pairs, ?_, ?_, ?_⟩
    · rw [hdroplen]
      have : L.length % 2 = 0 := hLeven
      omega
    · rw [hdroplen]; exact hlen
    · rcases hcons : L.drop 2 with _ | ⟨c, cs⟩
      · exact absurd hcons hne
      · rw [hcons] at hdrop_pairs
        have := isUAPairs_head c cs hdrop_pairs
        simp [hcons, this]
    · intro _; rfl
    · intro hsmall; rw [hLlen] at hbig; omega
  · rw [if_neg hbig]
    have hsmall : L.length ≤ 20 := by omega
    refine ⟨hLeven, hsmall, hLpairs, ?_, ?_, ?_⟩
    · rcases hcons : L with _ | ⟨c, cs⟩
      · rw [hcons] at hLlen
        simp at hLlen
      · rw [hcons] at hLpairs
        have := isUAPairs_head c cs hLpairs
        simp [this]
    · intro hbig2; rw [hLlen] at hbig; omega
    · intro _; rfl

/-- Witness for C4: a concrete successful turn on a full 20-entry history
trims the two oldest entries and keeps the invariant. -/
theorem history_invariant_after_turn_witness :
    (dialogue_process
      { tg_id := 5, text := "hi", now := 100,
        user := some
          { id := 1, telegram_id := some 5, brief_background := "b",
            goal := "g", sub_until := none, is_sub := true,
            is_reg := true, is_ban := false },
        msgCount := 3, paymentsEnabled := true, price := 19900,
        mentor := some
          { id := 1, name := "M", mentor_age := 40, background := "b",
            recent_events := "r", personality_style := "p",
            greeting := "hello", sys_prompt_summary := "s" },
        history := (List.replicate 10 (Msg.mk "user" "q")).flatMap
          (fun q => [q, Msg.mk "assistant" "a"]),
        embedCap := some [1], similar := [], replyCap := some "ok",
        replyEmbedCap := some [2] }).newHistory.length ≤ 20 :=
  (history_invariant_after_turn _
    { id := 1, telegram_id := some 5, brief_background := "b",
      goal := "g", sub_until := none, is_sub := true,
      is_reg := true, is_ban := false }
    { id := 1, name := "M", mentor_age := 40, background := "b",
      recent_events := "r", personality_style := "p",
      greeting := "hello", sys_prompt_summary := "s" }
    [1] "ok" [2] rfl rfl (by decide) (by decide) rfl (by decide) (by decide)
    (by decide) (by decide) (by decide)).2.1

/-- C7: on a successful turn, zero retrieval hits yield no synthetic system
turn at all, at least one hit yields exactly one system turn holding the
newline-joined hits placed between the persona turn and the short-term
history, and the retrieval turn is never appended to the stored history. -/
theorem retrieval_turn_shape (env : DialogueEnv) (u : DBUser)
    (m : DBMentor) (e1 : List Int) (resp : String) (e2 : List Int)
    (hu : env.user = some u) (hban : u.is_ban = false)
    (hexp : subExpiredCheck u env.now = false)
    (hlim : freeLimitCheck u env.msgCount = false)
    (hm : env.mentor = some m)
    (he : create_embeddings env.embedCap env.text = some e1)
    (hr : reply_from_mentor env.replyCap = some resp)
    (he2 : create_embeddings env.replyEmbedCap resp = some e2) :
    (env.similar = [] →
      (dialogue_process env).modelInput =
        Msg.mk "system" (mentor_json_str m u) ::
          (env.history ++ [Msg.mk "user" env.text])) ∧
    (env.similar ≠ [] →
      (dialogue_process env).modelInput =
        Msg.mk "system" (mentor_json_str m u) ::
          Msg.mk "system" (String.intercalate "\n" env.similar) ::
          (env.history ++ [Msg.mk "user" env.text])) ∧
    ((∀ x ∈ env.history, x.role ≠ "system") →
      ∀ x ∈ (dialogue_process env).newHistory, x.role ≠ "system") := by
  have hd := dialogue_success_eq env u m e1 resp e2 hu hban hexp hlim hm he hr he2
  rw [hd]
  dsimp only
  refine ⟨?_, ?_, ?_⟩
  · intro hnone
    simp [reply_messages, hnone]
  · intro hsome
    have : env.similar.isEmpty = false := by
      cases hcase : env.similar with
      | nil => exact absurd hcase hsome
      | cons a as => rfl
    simp [reply_messages, this]
  · intro hnosys x hx
    have hmem : x ∈ env.history ++ [Msg.mk "user" env.text,
        Msg.mk "assistant" resp] := by
      by_cases hbig : (env.history ++ [Msg.mk "user" env.text,
          Msg.mk "assistant" resp]).length > 20
      · rw [if_pos hbig] at hx
        exact List.mem_of_mem_drop hx
      · rw [if_neg hbig] at hx
        exact hx
    rcases List.mem_append.1 hmem with hold | hnew
    · exact hnosys x hold
    · rcases List.mem_cons.1 hnew with h1 | h2
      · subst h1; simp
      · rcases List.mem_cons.1 h2 with h3 | h4
        · subst h3; simp
        · cases h4

/-- Witness for C7: a concrete successful turn with one retrieval hit puts
exactly one system retrieval turn before the history. -/
theorem retrieval_turn_shape_witness :
    (dialogue_process
      { tg_id := 5, text := "hi", now := 100,
        user := some
          { id := 1, telegram_id := some 5, brief_background := "b",
            goal := "g", sub_until := none, is_sub := true,
            is_reg := true, is_ban := false },
        msgCount := 3, paymentsEnabled := true, price := 19900,
        mentor := some
          { id := 1, name := "M", mentor_age := 40, background := "b",
            recent_events := "r", personality_style := "p",
            greeting := "hello", sys_prompt_summary := "s" },
        history := [Msg.mk "user" "q", Msg.mk "assistant" "a"],
        embedCap := some [1], similar := ["old"], replyCap := some "ok",
        replyEmbedCap := some [2] }).modelInput =
      Msg.mk "system" (mentor_json_str
        { id := 1, name := "M", mentor_age := 40, background := "b",
          recent_events := "r", personality_style := "p",
          greeting := "hello", sys_prompt_summary := "s" }
        { id := 1, telegram_id := some 5, brief_background := "b",
          goal := "g", sub_until := none, is_sub := true,
          is_reg := true, is_ban := false }) ::
      Msg.mk "system" (String.intercalate "\n" ["old"]) ::
      ([Msg.mk "user" "q", Msg.mk "assistant" "a"] ++ [Msg.mk "user" "hi"]) :=
  (retrieval_turn_shape _
    { id := 1, telegram_id := some 5, brief_background := "b",
      goal := "g", sub_until := none, is_sub := true,
      is_reg := true, is_ban := false }
    { id := 1, name := "M", mentor_age := 40, background := "b",
      recent_events := "r", personality_style := "p",
      greeting := "hello", sys_prompt_summary := "s" }
    [1] "ok" [2] rfl rfl (by decide) (by decide) rfl (by decide) (by decide)
    (by decide)).2.1 (by decide)

end MentorBot
